import Mathlib

/-!
# Verification of the song-deduper caching and duplicate-detection engine

Shallow embedding of `src/song_deduper.py` (the caching / duplicate-detection
engine) and proofs about it.

Modelling conventions:
* Python strings are sequences of code points, modelled as `List Char`
  (`PyStr`); Python's `[-4:]` slice, `.lower()`, `.strip()`, `.endswith()`,
  `in`, `.split('/', 1)` and lexicographic `<=` become the corresponding
  list operations.
* Python dictionaries are association lists in insertion order (CPython
  dictionaries preserve insertion order, which is what the engine's
  "store iteration order" relies on).
* File-system state is explicit: a list of existing paths plus oracles for
  the externally computed per-file data (content digest, acoustic
  fingerprint, parsed tag dictionaries).
* Python exceptions are modelled with `Except`; an uncaught exception is an
  `Except.error` value that propagates.
-/

namespace SongDeduper

/-- A Python string as a sequence of code points. -/
abbrev PyStr := List Char

/-- Python `s.lower()` (per-character lowercasing). -/
def pyLower (s : PyStr) : PyStr := s.map Char.toLower

/-- Python `s[-n:]` (the whole string when `s` is shorter than `n`). -/
def pyTakeRight (s : PyStr) (n : Nat) : PyStr := s.drop (s.length - n)

/-- Python `s[:n]`. -/
def pyTake (s : PyStr) (n : Nat) : PyStr := s.take n

/-- Python `s.strip()`: drop whitespace from both ends. -/
def pyStrip (s : PyStr) : PyStr :=
  ((s.dropWhile Char.isWhitespace).reverse.dropWhile Char.isWhitespace).reverse

/-- Python `s.endswith(t)`. -/
def pyEndsWith (s t : PyStr) : Bool := t.isSuffixOf s

/-- Python's lexicographic `<=` on strings, comparing code points. -/
def pyStrLe : PyStr → PyStr → Bool
  | [], _ => true
  | _ :: _, [] => false
  | a :: as, b :: bs => if a = b then pyStrLe as bs else decide (a < b)

/-- Python `s.isdigit()` (restricted to ASCII decimal digits, which is all
the engine's tag data uses): non-empty and all digits. -/
def pyIsdigit (s : PyStr) : Bool := !s.isEmpty && s.all Char.isDigit

/-- Numeric value of a digit string. -/
def digitsToNat (s : PyStr) : Nat := s.foldl (fun a c => a * 10 + (c.toNat - 48)) 0

/-- Python `int(s)`: strip whitespace, optional sign, then decimal digits;
`none` models an uncaught `ValueError`. -/
def pyInt? (s : PyStr) : Option Int :=
  match pyStrip s with
  | '-' :: rest => if pyIsdigit rest then some (-(digitsToNat rest : Int)) else none
  | '+' :: rest => if pyIsdigit rest then some ((digitsToNat rest : Int)) else none
  | t => if pyIsdigit t then some ((digitsToNat t : Int)) else none

/-- Python `s.split(sep, 1)`: the part before the first `sep`, and the rest
after it when `sep` occurs (`none` when it does not). -/
def py_split1 (s : PyStr) (sep : Char) : PyStr × Option PyStr :=
  let before := s.takeWhile (fun c => c != sep)
  match s.dropWhile (fun c => c != sep) with
  | _ :: after => (before, some after)
  | [] => (before, none)

/-- Python exceptions the embedded code can raise (uncaught). -/
inductive PyErr where
  /-- Error `FileNotFoundError` from `open()` on a vanished path. -/
  | fileNotFound
  /-- Error `acoustid.FingerprintError`: the external tool cannot decode the file. -/
  | fingerprintError
  /-- Error `ValueError` from `int()` on a non-numeric string. -/
  | valueError
  /-- Error `UnboundLocalError`: a local variable read before any assignment. -/
  | unboundLocal
deriving DecidableEq, Repr

/-- The acoustic fingerprint: `tuple[float, Sequence[bytes]]` in the source.
The engine treats the duration and the byte blocks as opaque comparable data,
so the duration is modelled as a `Nat` and each byte block as a `List Nat`. -/
abbrev Fingerprint := Nat × List (List Nat)

/-- The second component of a fingerprint (`fingerprint[1]` in the source),
the byte blocks handed to `acoustid.compare_fingerprints`. -/
abbrev FingerprintBlocks := List (List Nat)

/-- The `MusicData` dataclass, `src/song_deduper.py` lines 23-35.  Every tag
field is optional (`None` in Python when the source tags lack it). -/
structure MusicData where
  artist : Option PyStr
  album : Option PyStr
  title : Option PyStr
  genre : Option PyStr
  year : Option Int
  disc_num : Option Int
  disc_total : Option Int
  track_num : Option Int
  track_total : Option Int
  fingerprint : Fingerprint
  md5 : PyStr
deriving DecidableEq, Repr

/- ## Tag parsing (`musicdata_from_easyid3` lines 38-81,
     `musicdata_from_m4a` lines 84-115) -/

/-- The EasyID3 tag dictionary, restricted to the seven keys the source
reads.  A field is `some v` when `m[key][0]` yields `v` and `none` when the
lookup raises `KeyError`. -/
structure ID3Tags where
  artist : Option PyStr
  album : Option PyStr
  title : Option PyStr
  date : Option PyStr
  genre : Option PyStr
  discnumber : Option PyStr
  tracknumber : Option PyStr
deriving DecidableEq, Repr

/-- The MP4 tag dictionary, restricted to the seven keys the source reads
(`\xa9ART`, `\xa9alb`, `\xa9nam`, `\xa9gen`, `\xa9day`, `disk`, `trkn`).
`disk` and `trkn` hold the `(num, total)` tuple at index 0. -/
structure M4ATags where
  art : Option PyStr
  alb : Option PyStr
  nam : Option PyStr
  gen : Option PyStr
  day : Option PyStr
  disk : Option (Int × Int)
  trkn : Option (Int × Int)
deriving DecidableEq, Repr

/-- The year idiom at lines 52 and 103:
`v.isdigit() and int(v[:4]) or None`.  Note the `and`/`or` chain maps a
parsed value of `0` back to `None` (a falsy `int`). -/
def parse_year_tag (v : PyStr) : Option Int :=
  if pyIsdigit v then
    match pyInt? (pyTake v 4) with
    | some y => if y = 0 then none else some y
    | none => none
  else none

/-- The `discnumber`/`tracknumber` idiom at lines 60-79: `none` input models
`KeyError` (both results `None`); a pure digit string gives `(int v, None)`;
a string containing `/` is split once and both halves go through `int()`,
where a non-numeric half raises `ValueError` (uncaught); anything else gives
`(None, None)`. -/
def parse_num_total (v : Option PyStr) : Except PyErr (Option Int × Option Int) :=
  match v with
  | none => .ok (none, none)
  | some s =>
    if pyIsdigit s then
      match pyInt? s with
      | some n => .ok (some n, none)
      | none => .error .valueError
    else if s.contains '/' then
      match py_split1 s '/' with
      | (a, some b) =>
        match pyInt? a, pyInt? b with
        | some x, some y => .ok (some x, some y)
        | _, _ => .error .valueError
      | (_, none) => .error .valueError
    else .ok (none, none)

/-- Function `musicdata_from_easyid3`, lines 38-81.  Each `try/except KeyError`
around `m[key][0]` is the corresponding optional field of `ID3Tags`; the
`print` at line 59 is an information-only side effect and is not modelled. -/
def musicdata_from_easyid3 (m : ID3Tags) (fingerprint : Fingerprint)
    (md5v : PyStr) : Except PyErr MusicData := do
  let artist := m.artist
  let album := m.album
  let title := m.title
  let year := m.date.bind parse_year_tag
  let genre := m.genre
  let (disc_num, disc_total) ← parse_num_total m.discnumber
  let (track_num, track_total) ← parse_num_total m.tracknumber
  return { artist, album, title, genre, year, disc_num, disc_total,
           track_num, track_total, fingerprint, md5 := md5v }

/-- Function `musicdata_from_m4a`, lines 84-115.  The `disk`/`trkn` tuples unpack
directly, so this constructor cannot raise. -/
def musicdata_from_m4a (m : M4ATags) (fingerprint : Fingerprint)
    (md5v : PyStr) : MusicData :=
  let artist := m.art
  let album := m.alb
  let title := m.nam
  let genre := m.gen
  let year := m.day.bind parse_year_tag
  let (disc_num, disc_total) :=
    match m.disk with
    | some (a, b) => (some a, some b)
    | none => (none, none)
  let (track_num, track_total) :=
    match m.trkn with
    | some (a, b) => (some a, some b)
    | none => (none, none)
  { artist, album, title, genre, year, disc_num, disc_total,
    track_num, track_total, fingerprint, md5 := md5v }

/- ## Path Catalog (`has_supported_file_extension` lines 128-129,
     `glob_cache` lines 132-147) -/

/-- Function `has_supported_file_extension`, lines 128-129:
`filename[-4:].lower() in ('.mp3', '.m4a')`. -/
def has_supported_file_extension (filename : PyStr) : Bool :=
  let t := pyLower (pyTakeRight filename 4)
  t == ".mp3".data || t == ".m4a".data

/-- Function `glob_cache`, lines 132-147.  `cached` is the content of the persisted
`<prefix>glob_cache.pickle` when that file exists (`none` models the
`FileNotFoundError` branch); `walk` is what `glob.glob(path + '/**',
recursive=True)` yields.  Returns the path list together with a flag
recording whether a new catalog was persisted (the `pickle.dump` at
line 146). -/
def glob_cache (cached : Option (List PyStr)) (walk : List PyStr) :
    List PyStr × Bool :=
  match cached with
  | some files => (files, false)
  | none =>
    let files := walk.filter has_supported_file_extension
    (files.mergeSort pyStrLe, true)

/- ## Record Store builder (`md5` lines 118-125,
     `add_song_to_musicdata` lines 150-160, `get_music_datas` lines 163-177) -/

/-- The external world a scan runs against: the paths existing on disk at
scan time, and oracles for the externally computed per-file data (content
digest, acoustic fingerprint, parsed tag dictionaries). -/
structure ScanEnv where
  disk : List PyStr
  md5_of : PyStr → PyStr
  fingerprint_of : PyStr → Except PyErr Fingerprint
  id3_of : PyStr → ID3Tags
  m4a_of : PyStr → M4ATags

/-- Function `md5`, lines 118-125: `open(fname, "rb")` raises `FileNotFoundError`
when the path does not exist; otherwise the streamed digest (an external
computation) is returned via the oracle. -/
def md5 (env : ScanEnv) (fname : PyStr) : Except PyErr PyStr :=
  if env.disk.contains fname then .ok (env.md5_of fname) else .error .fileNotFound

/-- A store keyed by `PyStr` paths (the Python `Dict[str, MusicData]`). -/
abbrev MusicDatas := List (PyStr × MusicData)

/-- Python dictionary assignment `d[k] = v`: replace in place when the key
exists, else append (insertion order preserved). -/
def store_set (store : MusicDatas) (k : PyStr) (v : MusicData) : MusicDatas :=
  if store.any (fun p => p.1 == k) then
    store.map (fun p => if p.1 == k then (k, v) else p)
  else store ++ [(k, v)]

/-- Function `add_song_to_musicdata`, lines 150-160.  `md5` runs first (line 152), so
a vanished file surfaces as `FileNotFoundError` there; `acoustid
.fingerprint_file` (line 153) may raise `FingerprintError`; neither is
caught anywhere.  When the filename ends in neither `.mp3` nor `.m4a` the
local `md` is never assigned and line 160 raises `UnboundLocalError`. -/
def add_song_to_musicdata (env : ScanEnv) (song_file : PyStr)
    (music_datas : MusicDatas) : Except PyErr MusicDatas := do
  let md5v ← md5 env song_file
  let fingerprint ← env.fingerprint_of song_file
  if pyEndsWith (pyLower song_file) ".mp3".data then
    match musicdata_from_easyid3 (env.id3_of song_file) fingerprint md5v with
    | .ok md => return store_set music_datas song_file md
    | .error e => .error e
  else if pyEndsWith (pyLower song_file) ".m4a".data then
    return store_set music_datas song_file
      (musicdata_from_m4a (env.m4a_of song_file) fingerprint md5v)
  else
    .error .unboundLocal

/-- The store-building loop of `get_music_datas` (lines 172-174): fold
`add_song_to_musicdata` over the catalog, starting from the empty dict; the
first uncaught exception aborts the whole build. -/
def build_music_datas (env : ScanEnv) (files : List PyStr) :
    Except PyErr MusicDatas :=
  files.foldlM (fun md f => add_song_to_musicdata env f md) []

/-- Function `get_music_datas`, lines 163-177.  `cached` is the content of the
persisted `<prefix>music_datas.pickle` when it exists; otherwise the store
is built from the catalog and persisted (flag `true`). -/
def get_music_datas (cached : Option MusicDatas) (env : ScanEnv)
    (files : List PyStr) : Except PyErr (MusicDatas × Bool) :=
  match cached with
  | some m => .ok (m, false)
  | none => do
    let m ← build_music_datas env files
    return (m, true)

/- ## Deletion Synchronizer (`delete_files`, lines 180-197) -/

/-- The warning printed at line 190 when a path fails the
exists-on-disk / extension check and disk deletion is skipped. -/
def warnDidNotDelete (fname : PyStr) : PyStr :=
  "Warn: Did not try to delete ".data ++ fname

/-- The warning printed at line 196 when a path is not a key of the store. -/
def warnNotInMusicData (fname : PyStr) : PyStr :=
  "Warn: Not in MusicData: ".data ++ fname

/-- State threaded through `delete_files`: the live file system (paths that
exist on disk), the store, the warnings printed to stderr so far, and the
`changed` flag. -/
structure DeleteState where
  disk : List PyStr
  store : MusicDatas
  warnings : List PyStr
  changed : Bool
deriving DecidableEq, Repr

/-- One iteration of the loop in `delete_files` (lines 185-196) on one input
line.  `pyStrip` models `line.strip()`.  The disk check-and-unlink
(lines 187-190) runs first; the store removal (lines 192-196) runs second
and branches only on store membership, not on the outcome of the disk step.
`os.unlink` is modelled by filtering the path out of the disk list, `del`
on the dictionary by filtering the key out of the association list. -/
def delete_one (st : DeleteState) (line : PyStr) : DeleteState :=
  let fname := pyStrip line
  let st1 :=
    if st.disk.contains fname && has_supported_file_extension fname then
      { st with disk := st.disk.filter (fun q => q != fname) }
    else
      { st with warnings := st.warnings ++ [warnDidNotDelete fname] }
  if st1.store.any (fun p => p.1 == fname) then
    { st1 with store := st1.store.filter (fun p => p.1 != fname), changed := true }
  else
    { st1 with warnings := st1.warnings ++ [warnNotInMusicData fname] }

/-- Function `delete_files`, lines 180-197: fold `delete_one` over the lines of the
delete-list file.  Line 184 initialises `changed = False`, so callers start
from a state with `changed = false`. -/
def delete_files (lines : List PyStr) (st : DeleteState) : DeleteState :=
  lines.foldl delete_one st

/- ## Duplicate Clusterer (`process_music_datas` lines 200-208,
     singleton skip in `print_dupes` lines 212-214) -/

section Cluster

variable {K : Type} [DecidableEq K]

/-- One `defaultdict(list)` update `buckets[k].append(fname)` (lines 204-205):
append to the bucket for `k` when it exists, else create a new bucket at the
end (Python dictionaries append new keys in insertion order). -/
def add_to_bucket (buckets : List (K × List PyStr)) (k : K) (fname : PyStr) :
    List (K × List PyStr) :=
  if buckets.any (fun b => b.1 = k) then
    buckets.map (fun b => if b.1 = k then (b.1, b.2 ++ [fname]) else b)
  else
    buckets ++ [(k, [fname])]

/-- The grouping loop of `process_music_datas` (lines 201-205), generic in
the grouping key (`info.md5` for the `hashes` dict, `(info.artist,
info.title)` for the `tags` dict): one pass over the store in iteration
order. -/
def cluster (key : MusicData → K) (store : MusicDatas) : List (K × List PyStr) :=
  store.foldl (fun bs p => add_to_bucket bs (key p.2) p.1) []

/-- The duplicate groups actually reported: `print_dupes` (lines 212-214)
skips every bucket with exactly one member, so the groups are the buckets
with two or more entries. -/
def dupe_groups (key : MusicData → K) (store : MusicDatas) :
    List (K × List PyStr) :=
  (cluster key store).filter (fun b => 2 ≤ b.2.length)

/-- The bucket a key maps to (`[]` when the key has no bucket). -/
def bucket_of (buckets : List (K × List PyStr)) (k : K) : List PyStr :=
  (((buckets.find? (fun b => b.1 = k)).map Prod.snd).getD [])

end Cluster

/-- The grouping key of the `hashes` dict (line 204): the content hash. -/
def md5_key (md : MusicData) : PyStr := md.md5

/-- The grouping key of the `tags` dict (line 205): `(info.artist,
info.title)`. -/
def tag_key (md : MusicData) : Option PyStr × Option PyStr := (md.artist, md.title)

/- ## Similarity Reporter (`print_dupes`, lines 211-225) -/

/-- The similarity scores `print_dupes` emits for one group (lines 216-225):
walking the group in bucket order while accumulating `prev_fingerprints`,
the entry for each path is the list of `acoustid.compare_fingerprints`
scores of its fingerprint blocks against every accumulated previous one.
`sim` is the external comparator, generic in its score type. -/
def print_dupes_scores {S : Type} (sim : FingerprintBlocks → FingerprintBlocks → S)
    (md : PyStr → MusicData) :
    List FingerprintBlocks → List PyStr → List (List S)
  | _, [] => []
  | prev, fname :: rest =>
    prev.map (fun fp => sim fp (md fname).fingerprint.2) ::
      print_dupes_scores sim md (prev ++ [(md fname).fingerprint.2]) rest

/- ## Persistence after deletion (`main`, lines 245-253) -/

/-- Constant `pickle_filename`, line 20. -/
def pickle_filename : PyStr := "music_datas.pickle".data

/-- The persistence-relevant events in `main`'s deletion branch. -/
inductive PersistEvent where
  /-- Event `os.rename(src, dst)`. -/
  | rename (src dst : PyStr)
  /-- Event `open(path, 'wb')`: create/truncate the file for writing. -/
  | openWrite (path : PyStr)
  /-- Event `pickle.dump(music_datas, f)`: serialize the store, streaming the
  bytes into the already-open file. -/
  | serializeStore (path : PyStr)
deriving DecidableEq, Repr

/-- True exactly on `rename` events. -/
def PersistEvent.isRename : PersistEvent → Bool
  | .rename _ _ => true
  | _ => false

/-- True exactly on store-serialization events. -/
def PersistEvent.isSerialize : PersistEvent → Bool
  | .serializeStore _ => true
  | _ => false

/-- The event sequence of `main` lines 249-252, executed when
`delete_files` reported a changed store: rename the previous blob to its
`.old` name, then open the store file for writing, then serialize the store
into it.  `p` is the cache prefix (`mac_` / `pc_`). -/
def main_persist_after_delete (p : PyStr) : List PersistEvent :=
  let fname := p ++ pickle_filename
  [PersistEvent.rename fname (fname ++ ".old".data),
   PersistEvent.openWrite fname,
   PersistEvent.serializeStore fname]

/- ## Concrete data used by counterexamples and witnesses -/

/-- A concrete fully-untagged record (only the digest is set). -/
def mdExample : MusicData :=
  { artist := none, album := none, title := none, genre := none, year := none,
    disc_num := none, disc_total := none, track_num := none, track_total := none,
    fingerprint := (0, []), md5 := "h1".data }

/- ## General list lemmas -/

/-- Removing at least one element makes a filtered list strictly shorter. -/
theorem length_filter_lt_of_mem {α : Type} {p : α → Bool} {l : List α} {a : α}
    (ha : a ∈ l) (hpa : p a = false) : (l.filter p).length < l.length := by
  induction l with
  | nil => cases ha
  | cons b t ih =>
    rcases List.mem_cons.mp ha with rfl | ha
    · simp only [List.filter_cons, hpa]
      exact Nat.lt_succ_of_le (List.length_filter_le p t)
    · cases hb : p b <;> simp only [List.filter_cons, hb]
      · exact Nat.lt_succ_of_lt (ih ha)
      · simpa using Nat.succ_lt_succ (ih ha)

/- ## Deletion Synchronizer lemmas -/

/-- The store after one `delete_one` step: the entry for the stripped line
is removed when present (and only then), independently of the disk step. -/
theorem delete_one_store (st : DeleteState) (line : PyStr) :
    (delete_one st line).store =
      if st.store.any (fun p => p.1 == pyStrip line) then
        st.store.filter (fun p => p.1 != pyStrip line)
      else st.store := by
  obtain ⟨d, s, w, c⟩ := st
  unfold delete_one
  dsimp only
  by_cases h1 : (d.contains (pyStrip line) &&
      has_supported_file_extension (pyStrip line)) = true
  · rw [if_pos h1]
    by_cases h2 : (s.any fun p => p.1 == pyStrip line) = true
    · rw [if_pos h2, if_pos h2]
    · rw [if_neg h2, if_neg h2]
  · rw [if_neg h1]
    by_cases h2 : (s.any fun p => p.1 == pyStrip line) = true
    · rw [if_pos h2, if_pos h2]
    · rw [if_neg h2, if_neg h2]

/-- The disk and warnings after one `delete_one` step, when the
exists-on-disk / extension check fails: no disk change, skip warning. -/
theorem delete_one_skip (st : DeleteState) (line : PyStr)
    (h : (st.disk.contains (pyStrip line) &&
          has_supported_file_extension (pyStrip line)) = false) :
    (delete_one st line).disk = st.disk ∧
    warnDidNotDelete (pyStrip line) ∈ (delete_one st line).warnings := by
  obtain ⟨d, s, w, c⟩ := st
  simp only at h
  have h1 : ¬ ((d.contains (pyStrip line) &&
      has_supported_file_extension (pyStrip line)) = true) := by
    rw [h]; exact Bool.false_ne_true
  unfold delete_one
  dsimp only
  rw [if_neg h1]
  by_cases h2 : (s.any fun p => p.1 == pyStrip line) = true
  · rw [if_pos h2]
    exact ⟨rfl, by simp⟩
  · rw [if_neg h2]
    exact ⟨rfl, by simp⟩

/-- The `changed` flag after one `delete_one` step: the old flag or-ed with
store membership of the stripped line. -/
theorem delete_one_changed_eq (st : DeleteState) (line : PyStr) :
    (delete_one st line).changed =
      (st.changed || st.store.any (fun p => p.1 == pyStrip line)) := by
  obtain ⟨d, s, w, c⟩ := st
  unfold delete_one
  dsimp only
  by_cases h2 : (s.any fun p => p.1 == pyStrip line) = true
  all_goals
    by_cases h1 : (d.contains (pyStrip line) &&
        has_supported_file_extension (pyStrip line)) = true
  · rw [if_pos h1, if_pos h2]
    dsimp only
    rw [h2]
    simp
  · rw [if_neg h1, if_pos h2]
    dsimp only
    rw [h2]
    simp
  · rw [if_pos h1, if_neg h2]
    dsimp only
    rw [Bool.not_eq_true] at h2
    rw [h2]
    simp
  · rw [if_neg h1, if_neg h2]
    dsimp only
    rw [Bool.not_eq_true] at h2
    rw [h2]
    simp

/-- Step `delete_one` never grows the store. -/
theorem delete_one_store_len_le (st : DeleteState) (line : PyStr) :
    (delete_one st line).store.length ≤ st.store.length := by
  rw [delete_one_store]
  split
  · exact List.length_filter_le _ _
  · exact le_rfl

/-- After one `delete_one` step the `changed` flag is the old flag or-ed
with "the store got strictly smaller in this step". -/
theorem delete_one_changed (st : DeleteState) (line : PyStr) :
    (delete_one st line).changed =
      (st.changed || decide ((delete_one st line).store.length < st.store.length)) := by
  rw [delete_one_changed_eq, delete_one_store]
  cases hk : st.store.any (fun p => p.1 == pyStrip line)
  · simp
  · obtain ⟨a, ha, hpa⟩ := List.any_eq_true.mp hk
    have hlt : (st.store.filter (fun p => p.1 != pyStrip line)).length < st.store.length :=
      length_filter_lt_of_mem ha (by simpa using hpa)
    simp [hlt]

/-- Function `delete_files` as a whole: the store only shrinks, and the final
`changed` flag is the initial one or-ed with "the store shrank". -/
theorem delete_files_changed_spec (lines : List PyStr) (st : DeleteState) :
    (delete_files lines st).store.length ≤ st.store.length ∧
    (delete_files lines st).changed =
      (st.changed || decide ((delete_files lines st).store.length < st.store.length)) := by
  induction lines generalizing st with
  | nil => simp [delete_files]
  | cons l rest ih =>
    have hfold : delete_files (l :: rest) st = delete_files rest (delete_one st l) := rfl
    obtain ⟨ih1, ih2⟩ := ih (delete_one st l)
    have h1 := delete_one_store_len_le st l
    have h2 := delete_one_changed st l
    rw [hfold]
    refine ⟨le_trans ih1 h1, ?_⟩
    rw [ih2, h2, Bool.or_assoc]
    cases st.changed
    · simp only [Bool.false_or]
      by_cases hb : (delete_one st l).store.length < st.store.length <;>
        by_cases hc : (delete_files rest (delete_one st l)).store.length <
          (delete_one st l).store.length <;>
        simp [hb, hc] <;> omega
    · simp

/-- Claim C8: the Deletion Synchronizer returns `true` iff at least one
entry was actually removed from the store during the batch (the store can
only lose entries, so "an entry was removed" is "the store got strictly
smaller"); and a delete-list entry whose path is absent from the store
leaves the store unchanged at that step, leaves the flag unchanged, and
produces the `Not in MusicData` warning. -/
theorem delete_files_changed_iff_removed (lines : List PyStr)
    (disk : List PyStr) (store : MusicDatas) (warnings : List PyStr) :
    ((delete_files lines ⟨disk, store, warnings, false⟩).changed = true ↔
      (delete_files lines ⟨disk, store, warnings, false⟩).store.length < store.length) ∧
    (∀ (st : DeleteState) (line : PyStr),
      st.store.any (fun p => p.1 == pyStrip line) = false →
        (delete_one st line).store = st.store ∧
        (delete_one st line).changed = st.changed ∧
        warnNotInMusicData (pyStrip line) ∈ (delete_one st line).warnings) := by
  constructor
  · have h := (delete_files_changed_spec lines ⟨disk, store, warnings, false⟩).2
    simp only at h
    rw [h]
    simp
  · intro st line habs
    refine ⟨?_, ?_, ?_⟩
    · rw [delete_one_store, if_neg (by simp [habs])]
    · rw [delete_one_changed_eq, habs, Bool.or_false]
    · obtain ⟨d, s, w, c⟩ := st
      simp only at habs
      have h2 : ¬ ((s.any fun p => p.1 == pyStrip line) = true) := by
        rw [habs]; exact Bool.false_ne_true
      unfold delete_one
      dsimp only
      by_cases h1 : (d.contains (pyStrip line) &&
          has_supported_file_extension (pyStrip line)) = true
      · rw [if_pos h1, if_neg h2]
        simp
      · rw [if_neg h1, if_neg h2]
        simp

/-- Witness for C8 at a concrete batch: store `{a.mp3, b.mp3}`, disk has
`a.mp3` only; deleting `a.mp3` and the unknown `c.mp3`. -/
theorem delete_files_changed_iff_removed_witness :
    ((delete_files ["a.mp3".data, "c.mp3".data]
        ⟨["a.mp3".data], [("a.mp3".data, mdExample)], [], false⟩).changed = true ↔
      (delete_files ["a.mp3".data, "c.mp3".data]
        ⟨["a.mp3".data], [("a.mp3".data, mdExample)], [], false⟩).store.length <
        [("a.mp3".data, mdExample)].length) ∧
    (∀ (st : DeleteState) (line : PyStr),
      st.store.any (fun p => p.1 == pyStrip line) = false →
        (delete_one st line).store = st.store ∧
        (delete_one st line).changed = st.changed ∧
        warnNotInMusicData (pyStrip line) ∈ (delete_one st line).warnings) :=
  delete_files_changed_iff_removed ["a.mp3".data, "c.mp3".data]
    ["a.mp3".data] [("a.mp3".data, mdExample)] []

/- ## Claim C1 -/

/-- Claim C1 as stated is false at a concrete input: for delete-list line
`x.mp3` with store `{x.mp3 ↦ mdExample}` and an empty disk, the path fails
the exists-on-disk check, so deletion is skipped with the warning — yet the
store entry for the path IS removed (the claim says it is not removed). -/
theorem store_entry_removed_despite_failed_check :
    (([] : List PyStr).contains (pyStrip "x.mp3".data) = false) ∧
    (delete_files ["x.mp3".data]
        ⟨[], [("x.mp3".data, mdExample)], [], false⟩).warnings
      = [warnDidNotDelete "x.mp3".data] ∧
    (delete_files ["x.mp3".data]
        ⟨[], [("x.mp3".data, mdExample)], [], false⟩).store = [] := by
  refine ⟨rfl, rfl, rfl⟩

/-- Claim C1 amended: when the exists-on-disk / recognized-extension check
fails for an input line, the disk deletion is indeed skipped with a warning
(disk unchanged), but the store entry for the stripped path is removed all
the same whenever it is present — removal from the store is unconditional
on the outcome of the disk checks. -/
theorem store_removal_unconditional_on_disk_check
    (st : DeleteState) (line : PyStr)
    (h : (st.disk.contains (pyStrip line) &&
          has_supported_file_extension (pyStrip line)) = false) :
    (delete_one st line).store = st.store.filter (fun p => p.1 != pyStrip line) ∧
    (delete_one st line).disk = st.disk ∧
    warnDidNotDelete (pyStrip line) ∈ (delete_one st line).warnings := by
  have hsk := delete_one_skip st line h
  refine ⟨?_, hsk.1, hsk.2⟩
  rw [delete_one_store]
  split
  · rfl
  · next hneg =>
    have hall : ∀ a ∈ st.store, (a.1 != pyStrip line) = true := by
      intro a ha
      by_contra hcontra
      apply hneg
      rw [List.any_eq_true]
      refine ⟨a, ha, ?_⟩
      simpa using hcontra
    exact (List.filter_eq_self.mpr hall).symm

/-- Witness for the amended C1 at the concrete counterexample input. -/
theorem store_removal_unconditional_on_disk_check_witness :
    ((([] : List PyStr).contains (pyStrip "x.mp3".data) &&
        has_supported_file_extension (pyStrip "x.mp3".data)) = false) ∧
    ((delete_one ⟨[], [("x.mp3".data, mdExample)], [], false⟩ "x.mp3".data).store
        = [("x.mp3".data, mdExample)].filter (fun p => p.1 != pyStrip "x.mp3".data) ∧
      (delete_one ⟨[], [("x.mp3".data, mdExample)], [], false⟩ "x.mp3".data).disk = [] ∧
      warnDidNotDelete (pyStrip "x.mp3".data) ∈
        (delete_one ⟨[], [("x.mp3".data, mdExample)], [], false⟩ "x.mp3".data).warnings) :=
  ⟨by decide, store_removal_unconditional_on_disk_check
    ⟨[], [("x.mp3".data, mdExample)], [], false⟩ "x.mp3".data (by decide)⟩

/- ## Claim C2 -/

/-- Claim C2 as stated is false: in the persistence sequence executed after
a store-changing deletion there is a rename event and a store-serialization
event, and it is NOT the case that every rename comes after every
serialization — the backup rename happens before the new store content is
serialized. -/
theorem rename_not_after_serialization :
    ¬ (∀ i j : Fin (main_persist_after_delete "pc_".data).length,
        ((main_persist_after_delete "pc_".data).get i).isRename = true →
        ((main_persist_after_delete "pc_".data).get j).isSerialize = true →
        j < i) := by decide

/-- Claim C2 amended: the previous persisted blob IS preserved under the
`.old`-suffixed name, but the rename to `.old` happens BEFORE the new store
content is serialized (the store is pickled directly into the freshly
opened file after the rename), not after an in-memory serialization: every
rename event strictly precedes every serialization event. -/
theorem rename_precedes_serialization (p : PyStr)
    (i j : Fin (main_persist_after_delete p).length)
    (hi : ((main_persist_after_delete p).get i).isRename = true)
    (hj : ((main_persist_after_delete p).get j).isSerialize = true) :
    i < j ∧
    (main_persist_after_delete p).get i =
      PersistEvent.rename (p ++ pickle_filename)
        (p ++ pickle_filename ++ ".old".data) := by
  fin_cases i <;> fin_cases j <;>
    simp_all [main_persist_after_delete, PersistEvent.isRename,
      PersistEvent.isSerialize]

/-- Witness for the amended C2 at the concrete `pc_` cache prefix. -/
theorem rename_precedes_serialization_witness :
    (((main_persist_after_delete "pc_".data).get ⟨0, by decide⟩).isRename = true) ∧
    (((main_persist_after_delete "pc_".data).get ⟨2, by decide⟩).isSerialize = true) ∧
    ((⟨0, by decide⟩ : Fin (main_persist_after_delete "pc_".data).length) < ⟨2, by decide⟩ ∧
      (main_persist_after_delete "pc_".data).get ⟨0, by decide⟩ =
        PersistEvent.rename ("pc_".data ++ pickle_filename)
          ("pc_".data ++ pickle_filename ++ ".old".data)) :=
  ⟨by decide, by decide,
    rename_precedes_serialization "pc_".data ⟨0, by decide⟩ ⟨2, by decide⟩
      (by decide) (by decide)⟩

/- ## Claims C3, C4, C5: counterexample environments -/

/-- A scan environment with an empty disk and trivial external oracles. -/
def envEmptyDisk : ScanEnv :=
  { disk := [],
    md5_of := fun _ => "d41d8cd98f00b204e9800998ecf8427e".data,
    fingerprint_of := fun _ => .ok (0, [[1]]),
    id3_of := fun _ => ⟨none, none, none, none, none, none, none⟩,
    m4a_of := fun _ => ⟨none, none, none, none, none, none, none⟩ }

/-- A scan environment whose disk holds `a.mp3` and `x.wav`. -/
def envTwoFiles : ScanEnv := { envEmptyDisk with disk := ["a.mp3".data, "x.wav".data] }

/-- Environment `envTwoFiles` with a fingerprinting oracle that always fails. -/
def envBadFingerprint : ScanEnv :=
  { envTwoFiles with fingerprint_of := fun _ => .error .fingerprintError }

/-- One `add_song_to_musicdata` step on a path missing from the disk:
`md5`'s `open` raises `FileNotFoundError`, which propagates uncaught. -/
theorem add_song_vanished (env : ScanEnv) (f : PyStr) (mdict : MusicDatas)
    (h : env.disk.contains f = false) :
    add_song_to_musicdata env f mdict = .error .fileNotFound := by
  unfold add_song_to_musicdata md5
  rw [h]
  rfl

/- ## Claim C3 -/

/-- Claim C3 as stated is false at a concrete input: with catalog `[a.mp3]`
and a disk on which `a.mp3` no longer exists, the build is not a silent
skip — both the build loop and `get_music_datas` (cache miss) abort with
`FileNotFoundError` and produce no store. -/
theorem vanished_path_aborts_build :
    build_music_datas envEmptyDisk ["a.mp3".data] = .error .fileNotFound ∧
    get_music_datas none envEmptyDisk ["a.mp3".data] = .error .fileNotFound :=
  ⟨rfl, rfl⟩

/-- Claim C3 amended: the build loop performs no existence check — a
catalog path that does not exist on disk at scan time makes `md5`'s `open`
raise `FileNotFoundError`, which propagates uncaught and aborts the whole
build at that path (the remaining paths are not processed and no store is
returned). -/
theorem vanished_path_error_propagates (env : ScanEnv) (f : PyStr)
    (rest : List PyStr) (mdict : MusicDatas)
    (h : env.disk.contains f = false) :
    List.foldlM (fun md g => add_song_to_musicdata env g md) mdict (f :: rest)
        = .error .fileNotFound ∧
    build_music_datas env (f :: rest) = .error .fileNotFound := by
  have h1 : List.foldlM (fun md g => add_song_to_musicdata env g md) mdict (f :: rest)
      = .error .fileNotFound := by
    rw [List.foldlM_cons, add_song_vanished env f mdict h]
    rfl
  exact ⟨h1, by
    unfold build_music_datas
    rw [List.foldlM_cons, add_song_vanished env f [] h]
    rfl⟩

/-- Witness for the amended C3 at the concrete vanished path. -/
theorem vanished_path_error_propagates_witness :
    (envEmptyDisk.disk.contains "a.mp3".data = false) ∧
    (List.foldlM (fun md g => add_song_to_musicdata envEmptyDisk g md) []
        ("a.mp3".data :: ["b.mp3".data]) = .error .fileNotFound ∧
      build_music_datas envEmptyDisk ("a.mp3".data :: ["b.mp3".data])
        = .error .fileNotFound) :=
  ⟨rfl, vanished_path_error_propagates envEmptyDisk "a.mp3".data
    ["b.mp3".data] [] rfl⟩

/- ## Claim C4 -/

/-- Claim C4 as stated is false at a concrete input: with catalog `[a.mp3]`,
the file present on disk, and a fingerprinting oracle that fails on it, the
build does not skip the file and continue — the whole build (and the
cache-miss `get_music_datas`) aborts with the `FingerprintError`, returning
no store at all. -/
theorem fingerprint_failure_aborts_build :
    build_music_datas envBadFingerprint ["a.mp3".data] = .error .fingerprintError ∧
    get_music_datas none envBadFingerprint ["a.mp3".data]
      = .error .fingerprintError :=
  ⟨rfl, rfl⟩

/-- One `add_song_to_musicdata` step on a file whose fingerprinting fails:
the `FingerprintError` from `acoustid.fingerprint_file` propagates uncaught. -/
theorem add_song_fingerprint_error (env : ScanEnv) (f : PyStr)
    (mdict : MusicDatas) (e : PyErr)
    (h1 : env.disk.contains f = true)
    (h2 : env.fingerprint_of f = .error e) :
    add_song_to_musicdata env f mdict = .error e := by
  unfold add_song_to_musicdata md5
  rw [h1, h2]
  rfl

/-- Claim C4 amended: a fingerprinting failure on an individual file is not
caught anywhere — it propagates out of `add_song_to_musicdata` and aborts
the whole build at that file; the remaining paths are not processed and no
store (with or without the failing file) is produced. -/
theorem fingerprint_error_propagates (env : ScanEnv) (f : PyStr)
    (rest : List PyStr) (mdict : MusicDatas) (e : PyErr)
    (h1 : env.disk.contains f = true)
    (h2 : env.fingerprint_of f = .error e) :
    List.foldlM (fun md g => add_song_to_musicdata env g md) mdict (f :: rest)
        = .error e ∧
    build_music_datas env (f :: rest) = .error e := by
  constructor
  · rw [List.foldlM_cons, add_song_fingerprint_error env f mdict e h1 h2]
    rfl
  · unfold build_music_datas
    rw [List.foldlM_cons, add_song_fingerprint_error env f [] e h1 h2]
    rfl

/-- Witness for the amended C4 at the concrete failing fingerprint. -/
theorem fingerprint_error_propagates_witness :
    (envBadFingerprint.disk.contains "a.mp3".data = true) ∧
    (envBadFingerprint.fingerprint_of "a.mp3".data = .error .fingerprintError) ∧
    (List.foldlM (fun md g => add_song_to_musicdata envBadFingerprint g md) []
        ("a.mp3".data :: ["b.mp3".data]) = .error .fingerprintError ∧
      build_music_datas envBadFingerprint ("a.mp3".data :: ["b.mp3".data])
        = .error .fingerprintError) :=
  ⟨rfl, rfl, fingerprint_error_propagates envBadFingerprint "a.mp3".data
    ["b.mp3".data] [] .fingerprintError rfl rfl⟩

/- ## Claim C5 -/

/-- Claim C5 as stated is false at a concrete input: a catalog path `x.wav`
(neither `.mp3` nor `.m4a`) that exists on disk is neither reported as a
catalog/engine mismatch nor silently dropped — the record construction
reads the undefined local `md` and the build aborts with
`UnboundLocalError`. -/
theorem unrecognized_container_reads_undefined :
    add_song_to_musicdata envTwoFiles "x.wav".data [] = .error .unboundLocal ∧
    build_music_datas envTwoFiles ["x.wav".data] = .error .unboundLocal :=
  ⟨rfl, rfl⟩

/-- Claim C5 amended: for any catalog path that exists on disk, fingerprints
successfully, and ends in neither `.mp3` nor `.m4a` (case-insensitively),
the per-file record construction reads the never-assigned local `md` —
`UnboundLocalError` — aborting the build; there is no mismatch report. -/
theorem unrecognized_container_unbound_local (env : ScanEnv) (f : PyStr)
    (mdict : MusicDatas) (fp : Fingerprint)
    (h1 : env.disk.contains f = true)
    (h2 : env.fingerprint_of f = .ok fp)
    (h3 : pyEndsWith (pyLower f) ".mp3".data = false)
    (h4 : pyEndsWith (pyLower f) ".m4a".data = false) :
    add_song_to_musicdata env f mdict = .error .unboundLocal := by
  unfold add_song_to_musicdata md5
  rw [h1, h2, h3, h4]
  rfl

/-- Witness for the amended C5 at the concrete `x.wav` path. -/
theorem unrecognized_container_unbound_local_witness :
    (envTwoFiles.disk.contains "x.wav".data = true) ∧
    (envTwoFiles.fingerprint_of "x.wav".data = .ok (0, [[1]])) ∧
    (pyEndsWith (pyLower "x.wav".data) ".mp3".data = false) ∧
    (pyEndsWith (pyLower "x.wav".data) ".m4a".data = false) ∧
    (add_song_to_musicdata envTwoFiles "x.wav".data [] = .error .unboundLocal) :=
  ⟨rfl, rfl, rfl, rfl,
    unrecognized_container_unbound_local envTwoFiles "x.wav".data [] (0, [[1]])
      rfl rfl rfl rfl⟩

/- ## Claim C9 -/

/-- Relation `pyStrLe` is transitive (lexicographic order on code points). -/
theorem pyStrLe_trans : ∀ a b c : PyStr,
    pyStrLe a b = true → pyStrLe b c = true → pyStrLe a c = true := by
  intro a
  induction a with
  | nil => intro b c _ _; rfl
  | cons x xs ih =>
    intro b c h1 h2
    cases b with
    | nil => simp [pyStrLe] at h1
    | cons y ys =>
      cases c with
      | nil => simp [pyStrLe] at h2
      | cons z zs =>
        simp only [pyStrLe] at h1 h2 ⊢
        by_cases hxy : x = y
        · subst hxy
          rw [if_pos rfl] at h1
          by_cases hyz : x = z
          · subst hyz
            rw [if_pos rfl] at h2
            rw [if_pos rfl]
            exact ih ys zs h1 h2
          · rw [if_neg hyz] at h2
            rw [if_neg hyz]
            exact h2
        · rw [if_neg hxy] at h1
          by_cases hyz : y = z
          · subst hyz
            rw [if_neg hxy]
            exact h1
          · rw [if_neg hyz] at h2
            have hlt : x < z := lt_trans (of_decide_eq_true h1) (of_decide_eq_true h2)
            have hxz : x ≠ z := ne_of_lt hlt
            rw [if_neg hxz]
            exact decide_eq_true hlt

/-- Relation `pyStrLe` is total. -/
theorem pyStrLe_total : ∀ a b : PyStr, (pyStrLe a b || pyStrLe b a) = true := by
  intro a
  induction a with
  | nil => intro b; rfl
  | cons x xs ih =>
    intro b
    cases b with
    | nil => rfl
    | cons y ys =>
      simp only [pyStrLe]
      by_cases hxy : x = y
      · subst hxy
        rw [if_pos rfl, if_pos rfl]
        exact ih ys
      · rw [if_neg hxy, if_neg (Ne.symm hxy)]
        rcases lt_or_gt_of_ne hxy with h | h
        · rw [decide_eq_true h]
          rfl
        · rw [decide_eq_true h]
          simp

/-- Claim C9: Path Catalog retrieval.  When the persisted catalog exists it
is returned verbatim with no re-scan and nothing re-persisted (so a path on
disk that is missing from the persisted catalog never appears in the
result); otherwise the walked paths are filtered by the recognized-audio-
extension check, sorted lexicographically, persisted, and returned: the
fresh result is sorted under `pyStrLe` and contains exactly the walked
paths passing `has_supported_file_extension`. -/
theorem glob_cache_spec (cached : List PyStr) (walk : List PyStr) :
    (glob_cache (some cached) walk = (cached, false)) ∧
    (∀ p, p ∈ walk → p ∉ cached → p ∉ (glob_cache (some cached) walk).1) ∧
    ((glob_cache none walk).2 = true) ∧
    ((glob_cache none walk).1.Pairwise (fun a b => pyStrLe a b = true)) ∧
    (∀ p, p ∈ (glob_cache none walk).1 ↔
      p ∈ walk ∧ has_supported_file_extension p = true) := by
  refine ⟨rfl, ?_, rfl, ?_, ?_⟩
  · intro p _ hp
    simpa [glob_cache] using hp
  · have h := @List.sorted_mergeSort PyStr pyStrLe
      (fun a b c => pyStrLe_trans a b c) (fun a b => pyStrLe_total a b)
      (walk.filter has_supported_file_extension)
    simpa [glob_cache] using h
  · intro p
    simp [glob_cache, List.mem_mergeSort, List.mem_filter]

/- ## Claim C6 -/

/-- Per-path score counts of `print_dupes_scores`, generalized over the
accumulated `prev_fingerprints`. -/
theorem print_dupes_scores_lengths {S : Type}
    (sim : FingerprintBlocks → FingerprintBlocks → S) (md : PyStr → MusicData) :
    ∀ (fnames : List PyStr) (prev : List FingerprintBlocks),
      (print_dupes_scores sim md prev fnames).map List.length
        = (List.range fnames.length).map (· + prev.length) := by
  intro fnames
  induction fnames with
  | nil => intro prev; rfl
  | cons f rest ih =>
    intro prev
    simp only [print_dupes_scores, List.map_cons, List.length_cons]
    rw [ih (prev ++ [(md f).fingerprint.2]), List.range_succ_eq_map,
      List.map_cons, List.map_map]
    congr 1
    · simp
    · apply List.map_congr_left
      intro a _
      simp only [List.length_append, List.length_cons, List.length_nil,
        Function.comp_apply]
      omega

/-- The scores emitted for the `i`-th group member, generalized over the
accumulated `prev_fingerprints`. -/
theorem print_dupes_scores_get {S : Type}
    (sim : FingerprintBlocks → FingerprintBlocks → S) (md : PyStr → MusicData) :
    ∀ (fnames : List PyStr) (prev : List FingerprintBlocks) (i : Nat) (y : PyStr),
      fnames[i]? = some y →
      (print_dupes_scores sim md prev fnames)[i]? =
        some ((prev ++ (fnames.take i).map (fun g => (md g).fingerprint.2)).map
          (fun fp => sim fp ((md y).fingerprint.2))) := by
  intro fnames
  induction fnames with
  | nil => intro prev i y h; simp at h
  | cons f rest ih =>
    intro prev i y h
    cases i with
    | zero =>
      simp only [List.getElem?_cons_zero, Option.some.injEq] at h
      subst h
      simp [print_dupes_scores]
    | succ n =>
      simp only [List.getElem?_cons_succ] at h
      simp only [print_dupes_scores, List.getElem?_cons_succ]
      rw [ih (prev ++ [(md f).fingerprint.2]) n y h]
      simp [List.take_succ_cons]

/-- Claim C6: for a duplicate group (any path list) of size `n`, the
Similarity Reporter's per-member score lists have lengths
`0, 1, ..., n-1` in bucket order (so the first member contributes zero
scores and the `i`-th member exactly `i`), the total number of emitted
scores is `0 + 1 + ... + (n-1)`, and the `i`-th member's scores are the
comparisons of each of the `i` preceding members' fingerprints, in order,
against its own. -/
theorem similarity_report_shape {S : Type}
    (sim : FingerprintBlocks → FingerprintBlocks → S) (md : PyStr → MusicData)
    (fnames : List PyStr) :
    ((print_dupes_scores sim md [] fnames).map List.length
        = List.range fnames.length) ∧
    (((print_dupes_scores sim md [] fnames).map List.length).sum
        = (List.range fnames.length).sum) ∧
    (∀ (i : Nat) (y : PyStr), fnames[i]? = some y →
      (print_dupes_scores sim md [] fnames)[i]? =
        some (((fnames.take i).map (fun g => (md g).fingerprint.2)).map
          (fun fp => sim fp ((md y).fingerprint.2)))) := by
  have hlen : (print_dupes_scores sim md [] fnames).map List.length
      = List.range fnames.length := by
    rw [print_dupes_scores_lengths sim md fnames []]
    simp
  refine ⟨hlen, by rw [hlen], ?_⟩
  intro i y h
  have := print_dupes_scores_get sim md fnames [] i y h
  simpa using this

/-- Witness for C6 on a concrete three-member group. -/
theorem similarity_report_shape_witness :
    ((print_dupes_scores Prod.mk (fun _ => mdExample) []
        ["a".data, "b".data, "c".data]).map List.length
      = List.range 3) ∧
    (((print_dupes_scores Prod.mk (fun _ => mdExample) []
        ["a".data, "b".data, "c".data]).map List.length).sum
      = (List.range 3).sum) ∧
    (∀ (i : Nat) (y : PyStr), ["a".data, "b".data, "c".data][i]? = some y →
      (print_dupes_scores Prod.mk (fun _ => mdExample) []
          ["a".data, "b".data, "c".data])[i]? =
        some (((["a".data, "b".data, "c".data].take i).map
            (fun g => ((fun _ => mdExample) g).fingerprint.2)).map
          (fun fp => (fp, ((fun _ => mdExample) y).fingerprint.2)))) :=
  similarity_report_shape Prod.mk (fun _ => mdExample)
    ["a".data, "b".data, "c".data]

/- ## Duplicate Clusterer lemmas -/

section ClusterLemmas

variable {K : Type} [DecidableEq K]

/-- The bucket update preserves every bucket's key. -/
theorem fst_update (k : K) (f : PyStr) (b : K × List PyStr) :
    (if b.1 = k then (b.1, b.2 ++ [f]) else b).1 = b.1 := by
  split <;> rfl

/-- Looking up a key after the per-bucket update commutes with `find?`. -/
theorem find?_key_update (bs : List (K × List PyStr)) (k k' : K) (f : PyStr) :
    (bs.map (fun b => if b.1 = k then (b.1, b.2 ++ [f]) else b)).find?
        (fun b => b.1 = k') =
      (bs.find? (fun b => b.1 = k')).map
        (fun b => if b.1 = k then (b.1, b.2 ++ [f]) else b) := by
  rw [List.find?_map]
  have hp : ((fun b : K × List PyStr => decide (b.1 = k')) ∘
      fun b => if b.1 = k then (b.1, b.2 ++ [f]) else b) =
      fun b : K × List PyStr => decide (b.1 = k') := by
    funext b
    simp [Function.comp, fst_update]
  rw [hp]

/-- Update `add_to_bucket` appends to the bucket of its own key. -/
theorem bucket_of_add_same (bs : List (K × List PyStr)) (k : K) (f : PyStr) :
    bucket_of (add_to_bucket bs k f) k = bucket_of bs k ++ [f] := by
  unfold add_to_bucket bucket_of
  by_cases hany : (bs.any fun b => b.1 = k) = true
  · rw [if_pos hany, find?_key_update]
    obtain ⟨a, ha, hpa⟩ := List.any_eq_true.mp hany
    cases hfind : bs.find? (fun b => decide (b.1 = k)) with
    | none =>
      rw [List.find?_eq_none] at hfind
      exact absurd hpa (hfind a ha)
    | some b =>
      have hb1 : b.1 = k := by simpa using List.find?_some hfind
      simp [hfind, hb1]
  · rw [if_neg hany, List.find?_append]
    have hnone : bs.find? (fun b => decide (b.1 = k)) = none := by
      rw [List.find?_eq_none]
      intro x hx hpx
      exact hany (List.any_eq_true.mpr ⟨x, hx, hpx⟩)
    rw [hnone]
    simp

/-- Update `add_to_bucket` leaves every other key's bucket unchanged. -/
theorem bucket_of_add_other (bs : List (K × List PyStr)) (k k' : K) (f : PyStr)
    (hkk : k' ≠ k) :
    bucket_of (add_to_bucket bs k f) k' = bucket_of bs k' := by
  unfold add_to_bucket bucket_of
  by_cases hany : (bs.any fun b => b.1 = k) = true
  · rw [if_pos hany, find?_key_update]
    cases hfind : bs.find? (fun b => decide (b.1 = k')) with
    | none => simp [hfind]
    | some b =>
      have hb1 : b.1 = k' := by simpa using List.find?_some hfind
      have hbk : ¬ (b.1 = k) := by rw [hb1]; exact hkk
      simp [hfind, hbk]
  · rw [if_neg hany, List.find?_append]
    have hsingle : ([((k : K), [f])].find? (fun b => decide (b.1 = k'))) = none := by
      rw [List.find?_eq_none]
      intro x hx hpx
      rw [List.mem_singleton] at hx
      subst hx
      exact hkk.symm (by simpa using hpx)
    rw [hsingle]
    simp

/-- The bucket contents of the clustering fold: what was there before,
followed by the matching store paths in iteration order. -/
theorem bucket_of_cluster_fold (key : MusicData → K) :
    ∀ (store : MusicDatas) (bs : List (K × List PyStr)) (k : K),
      bucket_of (store.foldl (fun acc p => add_to_bucket acc (key p.2) p.1) bs) k
        = bucket_of bs k ++ (store.filter (fun p => key p.2 = k)).map Prod.fst := by
  intro store
  induction store with
  | nil => intro bs k; simp
  | cons p rest ih =>
    intro bs k
    rw [List.foldl_cons, ih]
    by_cases hk : key p.2 = k
    · rw [← hk, bucket_of_add_same]
      simp [List.filter_cons, hk]
    · rw [bucket_of_add_other _ _ _ _ (fun he => hk he.symm)]
      simp [List.filter_cons, hk]

/-- The bucket a key maps to in `cluster key store`: exactly the store
paths whose record has that key, in store iteration order. -/
theorem bucket_of_cluster (key : MusicData → K) (store : MusicDatas) (k : K) :
    bucket_of (cluster key store) k
      = (store.filter (fun p => key p.2 = k)).map Prod.fst := by
  unfold cluster
  rw [bucket_of_cluster_fold]
  rfl

/-- Keys of the buckets after one `add_to_bucket`. -/
theorem add_to_bucket_keys (bs : List (K × List PyStr)) (k : K) (f : PyStr) :
    (add_to_bucket bs k f).map Prod.fst =
      if (bs.any fun b => b.1 = k) = true then bs.map Prod.fst
      else bs.map Prod.fst ++ [k] := by
  unfold add_to_bucket
  split
  · rw [List.map_map]
    apply List.map_congr_left
    intro b _
    simp [Function.comp, fst_update]
  · simp

/-- The clustering fold keeps bucket keys duplicate-free. -/
theorem cluster_fold_keys_nodup (key : MusicData → K) :
    ∀ (store : MusicDatas) (bs : List (K × List PyStr)),
      (bs.map Prod.fst).Nodup →
      ((store.foldl (fun acc p => add_to_bucket acc (key p.2) p.1) bs).map
        Prod.fst).Nodup := by
  intro store
  induction store with
  | nil => intro bs h; simpa using h
  | cons p rest ih =>
    intro bs h
    rw [List.foldl_cons]
    apply ih
    rw [add_to_bucket_keys]
    split
    · exact h
    · next hany =>
      rw [List.nodup_append]
      refine ⟨h, List.nodup_singleton _, ?_⟩
      intro a ha hb
      rw [List.mem_singleton] at hb
      subst hb
      obtain ⟨b, hbmem, hbfst⟩ := List.mem_map.mp ha
      exact hany (List.any_eq_true.mpr ⟨b, hbmem, by simp [hbfst]⟩)

/-- Function `cluster` produces duplicate-free bucket keys. -/
theorem cluster_keys_nodup (key : MusicData → K) (store : MusicDatas) :
    ((cluster key store).map Prod.fst).Nodup :=
  cluster_fold_keys_nodup key store [] (by simp)

/-- With duplicate-free keys, a bucket's contents are its key's lookup. -/
theorem bucket_of_mem {buckets : List (K × List PyStr)}
    (hnd : (buckets.map Prod.fst).Nodup) {b : K × List PyStr}
    (hb : b ∈ buckets) : bucket_of buckets b.1 = b.2 := by
  induction buckets with
  | nil => cases hb
  | cons c t ih =>
    rw [List.map_cons, List.nodup_cons] at hnd
    rcases List.mem_cons.mp hb with rfl | hbt
    · unfold bucket_of
      rw [List.find?_cons_of_pos _ (by simp)]
      rfl
    · have hne : ¬ (c.1 = b.1) := by
        intro he
        have hmem : b.1 ∈ t.map Prod.fst := List.mem_map.mpr ⟨b, hbt, rfl⟩
        rw [← he] at hmem
        exact hnd.1 hmem
      unfold bucket_of
      rw [List.find?_cons_of_neg _ (by simp [hne])]
      exact ih hnd.2 hbt

/-- A non-empty lookup names an actual bucket. -/
theorem exists_bucket_of_ne_nil {buckets : List (K × List PyStr)} {k : K}
    (h : bucket_of buckets k ≠ []) :
    ∃ b ∈ buckets, b.1 = k ∧ b.2 = bucket_of buckets k := by
  unfold bucket_of at h ⊢
  cases hfind : buckets.find? (fun b => b.1 = k) with
  | none => rw [hfind] at h; simp at h
  | some b =>
    refine ⟨b, List.mem_of_find?_eq_some hfind, ?_, ?_⟩
    · simpa using List.find?_some hfind
    · rfl

end ClusterLemmas

/-- In a store with duplicate-free keys, entries are determined by their
path. -/
theorem store_key_inj {store : MusicDatas}
    (hnd : (store.map Prod.fst).Nodup) {p q : PyStr × MusicData}
    (hp : p ∈ store) (hq : q ∈ store) (h : p.1 = q.1) : p = q := by
  induction store with
  | nil => cases hp
  | cons c t ih =>
    rw [List.map_cons, List.nodup_cons] at hnd
    rcases List.mem_cons.mp hp with rfl | hpt
    · rcases List.mem_cons.mp hq with rfl | hqt
      · rfl
      · have hmem : q.1 ∈ t.map Prod.fst := List.mem_map.mpr ⟨q, hqt, rfl⟩
        rw [← h] at hmem
        exact absurd hmem hnd.1
    · rcases List.mem_cons.mp hq with rfl | hqt
      · have hmem : p.1 ∈ t.map Prod.fst := List.mem_map.mpr ⟨p, hpt, rfl⟩
        rw [h] at hmem
        exact absurd hmem hnd.1
      · exact ih hnd.2 hpt hqt

/-- A list holding two distinct elements has length at least two. -/
theorem two_le_length_of_mem_ne {α : Type} {l : List α} {a b : α}
    (ha : a ∈ l) (hb : b ∈ l) (hne : a ≠ b) : 2 ≤ l.length := by
  cases l with
  | nil => cases ha
  | cons x t =>
    cases t with
    | nil =>
      rw [List.mem_singleton] at ha hb
      exact absurd (ha.trans hb.symm) hne
    | cons y u =>
      simp only [List.length_cons]
      omega

/- ## Claim C7 -/

/-- Claim C7: clustering iterates the store once and the reported duplicate
groups are exactly the buckets with at least two members (singleton buckets
discarded); every bucket lists, in store iteration order, precisely the
paths whose record carries the bucket's key (so any two paths in one
reported group share the grouping key — identical `content_hash` under
hash-keyed clustering); and two store entries at distinct paths sharing no
hash-keyed duplicate group have distinct `content_hash`. -/
theorem cluster_spec {K : Type} [DecidableEq K] (key : MusicData → K)
    (store : MusicDatas) (hnd : (store.map Prod.fst).Nodup) :
    (∀ b ∈ dupe_groups key store, 2 ≤ b.2.length) ∧
    (∀ b ∈ cluster key store,
      b.2 = (store.filter (fun p => key p.2 = b.1)).map Prod.fst) ∧
    (∀ p ∈ store, ∀ q ∈ store, ∀ b ∈ dupe_groups key store,
      p.1 ∈ b.2 → q.1 ∈ b.2 → key p.2 = key q.2) ∧
    (∀ p ∈ store, ∀ q ∈ store, p.1 ≠ q.1 →
      (∀ b ∈ dupe_groups md5_key store, ¬ (p.1 ∈ b.2 ∧ q.1 ∈ b.2)) →
      p.2.md5 ≠ q.2.md5) := by
  have h2 : ∀ b ∈ cluster key store,
      b.2 = (store.filter (fun p => key p.2 = b.1)).map Prod.fst := by
    intro b hb
    rw [← bucket_of_cluster key store b.1,
      bucket_of_mem (cluster_keys_nodup key store) hb]
  refine ⟨?_, h2, ?_, ?_⟩
  · intro b hb
    have := (List.mem_filter.mp hb).2
    simpa using this
  · intro p hp q hq b hb hpb hqb
    have hbc : b ∈ cluster key store := (List.mem_filter.mp hb).1
    rw [h2 b hbc] at hpb hqb
    obtain ⟨pe, hpe, hpe1⟩ := List.mem_map.mp hpb
    obtain ⟨qe, hqe, hqe1⟩ := List.mem_map.mp hqb
    have hpem := List.mem_filter.mp hpe
    have hqem := List.mem_filter.mp hqe
    have hpp : pe = p := store_key_inj hnd hpem.1 hp hpe1
    have hqq : qe = q := store_key_inj hnd hqem.1 hq hqe1
    have e1 : key p.2 = b.1 := by
      have := hpem.2
      rw [hpp] at this
      simpa using this
    have e2 : key q.2 = b.1 := by
      have := hqem.2
      rw [hqq] at this
      simpa using this
    rw [e1, e2]
  · intro p hp q hq hne hnoshare heq
    have hbn := bucket_of_cluster md5_key store (md5_key p.2)
    have hpmem : p.1 ∈ bucket_of (cluster md5_key store) (md5_key p.2) := by
      rw [hbn]
      exact List.mem_map.mpr ⟨p, List.mem_filter.mpr ⟨hp, by simp⟩, rfl⟩
    have hqmem : q.1 ∈ bucket_of (cluster md5_key store) (md5_key p.2) := by
      rw [hbn]
      refine List.mem_map.mpr ⟨q, List.mem_filter.mpr ⟨hq, ?_⟩, rfl⟩
      simp [md5_key, heq]
    have hnil : bucket_of (cluster md5_key store) (md5_key p.2) ≠ [] := by
      intro hcon
      rw [hcon] at hpmem
      cases hpmem
    obtain ⟨b, hbmem, hb1, hb2⟩ := exists_bucket_of_ne_nil hnil
    have hdug : b ∈ dupe_groups md5_key store := by
      unfold dupe_groups
      refine List.mem_filter.mpr ⟨hbmem, ?_⟩
      have h2b : 2 ≤ b.2.length := by
        rw [hb2]
        exact two_le_length_of_mem_ne hpmem hqmem hne
      simpa using h2b
    exact hnoshare b hdug ⟨by rw [hb2]; exact hpmem, by rw [hb2]; exact hqmem⟩

/-- A second concrete record, distinct from `mdExample` only in the digest. -/
def mdOther : MusicData := { mdExample with md5 := "h2".data }

/-- A concrete store: two byte-identical files and one different one. -/
def storeExample : MusicDatas :=
  [("a.mp3".data, mdExample), ("b.mp3".data, mdExample), ("c.mp3".data, mdOther)]

/-- Witness for C7 on the concrete three-entry store, hash-keyed. -/
theorem cluster_spec_witness :
    ((storeExample.map Prod.fst).Nodup) ∧
    ((∀ b ∈ dupe_groups md5_key storeExample, 2 ≤ b.2.length) ∧
     (∀ b ∈ cluster md5_key storeExample,
       b.2 = (storeExample.filter (fun p => md5_key p.2 = b.1)).map Prod.fst) ∧
     (∀ p ∈ storeExample, ∀ q ∈ storeExample,
       ∀ b ∈ dupe_groups md5_key storeExample,
       p.1 ∈ b.2 → q.1 ∈ b.2 → md5_key p.2 = md5_key q.2) ∧
     (∀ p ∈ storeExample, ∀ q ∈ storeExample, p.1 ≠ q.1 →
       (∀ b ∈ dupe_groups md5_key storeExample, ¬ (p.1 ∈ b.2 ∧ q.1 ∈ b.2)) →
       p.2.md5 ≠ q.2.md5)) :=
  ⟨by decide, cluster_spec md5_key storeExample (by decide)⟩

/- ## Claim C10 -/

/-- Claim C10: records lacking both artist and title tags all receive the
tag grouping key `(None, None)` — both tag-extraction constructors produce
that key when the artist/title tags are absent — and for any store holding
two untagged records at distinct paths, tag-keyed clustering reports a
duplicate group keyed `(None, None)` containing every untagged record's
path, regardless of the records' content hashes. -/
theorem untagged_records_one_tag_group (store : MusicDatas)
    (p q : PyStr × MusicData) (hp : p ∈ store) (hq : q ∈ store)
    (hne : p.1 ≠ q.1)
    (hpa : p.2.artist = none) (hpt : p.2.title = none)
    (hqa : q.2.artist = none) (hqt : q.2.title = none) :
    (∀ md : MusicData, md.artist = none → md.title = none →
      tag_key md = (none, none)) ∧
    (∀ (m : ID3Tags) (fp : Fingerprint) (dg : PyStr) (md : MusicData),
      m.artist = none → m.title = none →
      musicdata_from_easyid3 m fp dg = .ok md → tag_key md = (none, none)) ∧
    (∀ (m : M4ATags) (fp : Fingerprint) (dg : PyStr),
      m.art = none → m.nam = none →
      tag_key (musicdata_from_m4a m fp dg) = (none, none)) ∧
    (∃ b ∈ dupe_groups tag_key store, b.1 = (none, none) ∧
      ∀ r ∈ store, r.2.artist = none → r.2.title = none → r.1 ∈ b.2) := by
  refine ⟨?_, ?_, ?_, ?_⟩
  · intro md ha ht
    simp [tag_key, ha, ht]
  · intro m fp dg md ha ht hok
    unfold musicdata_from_easyid3 at hok
    cases hd : parse_num_total m.discnumber with
    | error e => rw [hd] at hok; exact Except.noConfusion hok
    | ok dpair =>
      cases htr : parse_num_total m.tracknumber with
      | error e =>
        rw [hd, htr] at hok
        obtain ⟨d1, d2⟩ := dpair
        exact Except.noConfusion hok
      | ok tpair =>
        rw [hd, htr] at hok
        obtain ⟨d1, d2⟩ := dpair
        obtain ⟨t1, t2⟩ := tpair
        have hmd : md = { artist := m.artist, album := m.album,
                          title := m.title, genre := m.genre,
                          year := m.date.bind parse_year_tag, disc_num := d1,
                          disc_total := d2, track_num := t1, track_total := t2,
                          fingerprint := fp, md5 := dg } :=
          (Except.ok.inj hok).symm
        rw [hmd]
        simp [tag_key, ha, ht]
  · intro m fp dg ha hn
    simp [musicdata_from_m4a, tag_key, ha, hn]
  · have hbn := bucket_of_cluster tag_key store
      ((none, none) : Option PyStr × Option PyStr)
    have hpk : tag_key p.2 = (none, none) := by simp [tag_key, hpa, hpt]
    have hqk : tag_key q.2 = (none, none) := by simp [tag_key, hqa, hqt]
    have hpmem : p.1 ∈ bucket_of (cluster tag_key store) (none, none) := by
      rw [hbn]
      exact List.mem_map.mpr ⟨p, List.mem_filter.mpr ⟨hp, by simp [hpk]⟩, rfl⟩
    have hqmem : q.1 ∈ bucket_of (cluster tag_key store) (none, none) := by
      rw [hbn]
      exact List.mem_map.mpr ⟨q, List.mem_filter.mpr ⟨hq, by simp [hqk]⟩, rfl⟩
    have hnil : bucket_of (cluster tag_key store) (none, none) ≠ [] := by
      intro hcon
      rw [hcon] at hpmem
      cases hpmem
    obtain ⟨b, hbmem, hb1, hb2⟩ := exists_bucket_of_ne_nil hnil
    have hdug : b ∈ dupe_groups tag_key store := by
      unfold dupe_groups
      refine List.mem_filter.mpr ⟨hbmem, ?_⟩
      have h2b : 2 ≤ b.2.length := by
        rw [hb2]
        exact two_le_length_of_mem_ne hpmem hqmem hne
      simpa using h2b
    refine ⟨b, hdug, hb1, ?_⟩
    intro r hr hra hrt
    rw [hb2, hbn]
    exact List.mem_map.mpr ⟨r, List.mem_filter.mpr ⟨hr, by simp [tag_key, hra, hrt]⟩, rfl⟩

/-- A concrete store of two untagged records with different digests. -/
def storeUntagged : MusicDatas :=
  [("a.mp3".data, mdExample), ("b.mp3".data, mdOther)]

/-- Witness for C10 on the concrete two-entry untagged store. -/
theorem untagged_records_one_tag_group_witness :
    (("a.mp3".data, mdExample) ∈ storeUntagged) ∧
    (("b.mp3".data, mdOther) ∈ storeUntagged) ∧
    ((("a.mp3".data, mdExample) : PyStr × MusicData).1 ≠ ("b.mp3".data, mdOther).1) ∧
    ((∀ md : MusicData, md.artist = none → md.title = none →
        tag_key md = (none, none)) ∧
     (∀ (m : ID3Tags) (fp : Fingerprint) (dg : PyStr) (md : MusicData),
        m.artist = none → m.title = none →
        musicdata_from_easyid3 m fp dg = .ok md → tag_key md = (none, none)) ∧
     (∀ (m : M4ATags) (fp : Fingerprint) (dg : PyStr),
        m.art = none → m.nam = none →
        tag_key (musicdata_from_m4a m fp dg) = (none, none)) ∧
     (∃ b ∈ dupe_groups tag_key storeUntagged, b.1 = (none, none) ∧
        ∀ r ∈ storeUntagged, r.2.artist = none → r.2.title = none →
          r.1 ∈ b.2)) :=
  ⟨by decide, by decide, by decide,
    untagged_records_one_tag_group storeUntagged
      ("a.mp3".data, mdExample) ("b.mp3".data, mdOther)
      (by decide) (by decide) (by decide) rfl rfl rfl rfl⟩

end SongDeduper
